import Mathlib

/-!
Verification of the "closest-stops" resolution engine of the `cta` repository
(joerex1418/cta) against its natural-language specification.

The development shallowly embeds:
* `src/cta/static.py` — `StopType`, `CTAdb.stops` (the stop-inventory query,
  as invoked with only its `stop_type` filter, which is the sole filter every
  modelled call site passes), `save_stop_transfers`'s stop-id flagging, and the
  module-level `closest_stops`;
* `src/cta/cta.py` — `StopSearch.closest_stops` (bus/train split, route and
  exclusion filtering, distance ranking, direction columns, per-type limits and
  the bus-then-train concatenation);
* `src/cta/utils.py` — `geolocate` and `get_distance` (the haversine wrapper).

Python floats are modelled by `ℚ` where only ordering and equality matter
(sort keys, coordinates as data), and by `ℝ` where the actual haversine
trigonometry is in question (`get_distance`).  Python `None` is `Option.none`,
keyword defaults are explicit arguments, and raisable code returns `Except`.
-/

/- Definitions: the shallow embedding of the data model and operations. -/

def insertByKey {α : Type} (key : α → ℚ) (x : α) : List α → List α
  | [] => [x]
  | y :: l => if key x ≤ key y then x :: y :: l else y :: insertByKey key x l

def sortByKey {α : Type} (key : α → ℚ) : List α → List α
  | [] => []
  | x :: l => insertByKey key x (sortByKey key l)

/-- Python `str.lower()` (ASCII data throughout this feed). -/
def lowerStr (s : String) : String := ⟨s.data.map Char.toLower⟩

/-- Python `str.title()` restricted to ASCII, as applied to route ids and stop
ids in `StopSearch.closest_stops`: a letter is uppercased when the previous
character is not a letter and lowercased otherwise. -/
def pyTitleAux : Bool → List Char → List Char
  | _, [] => []
  | prevAlpha, c :: cs =>
    (if c.isAlpha then (if prevAlpha then c.toLower else c.toUpper) else c)
      :: pyTitleAux c.isAlpha cs

def pyTitle (s : String) : String := ⟨pyTitleAux false s.data⟩

def startsWithChars : List Char → List Char → Bool
  | _, [] => true
  | [], _ :: _ => false
  | c :: cs, p :: ps => c == p && startsWithChars cs ps

def containsChars : List Char → List Char → Bool
  | [], p => p.isEmpty
  | c :: cs, p => startsWithChars (c :: cs) p || containsChars cs p

/-- Python `pat in s` for strings (`pat` the fixed non-empty direction words
searched by `translate_bus_dir`). -/
def strContains (s pat : String) : Bool := containsChars s.data pat.data

/-- A row of the normalized `stops` table built by `update_static_db("stops")`.
That routine casts every column of interest to INTEGER/REAL; SQLite's
`CAST('' AS INTEGER)` turns the empty `parent_station` of bus stops and of
train parent stations into `0`. -/
structure GtfsStop where
  stop_id : Int
  stop_name : String
  stop_desc : String
  stop_lat : ℚ
  stop_lon : ℚ
  location_type : Int
  parent_station : Int
  wheelchair_boarding : Int
deriving DecidableEq, Repr

/-- The Python value passed for `stop_type`: a `StopType` enum member or a raw
string (`static.py` declares `StopType.BUS = "Bus"`, `StopType.TRAIN = "Train"`). -/
inductive PyStopType
  | enumBus
  | enumTrain
  | pystr (s : String)
deriving DecidableEq, Repr

/-- Python `str()` of the value (`str(StopType.TRAIN) = "StopType.TRAIN"`). -/
def pyStopTypeStr : PyStopType → String
  | .enumBus => "StopType.BUS"
  | .enumTrain => "StopType.TRAIN"
  | .pystr s => s

/-- Python truthiness of the value (`if stop_type:`); the empty string is falsy. -/
def pyStopTypeTruthy : PyStopType → Bool
  | .pystr s => !(s == "")
  | _ => true

/-- The test on `src/cta/static.py:320`:
`stop_type is StopType.TRAIN or str(stop_type).lower() == StopType.TRAIN.value.lower()`. -/
def isTrainStopType : PyStopType → Bool
  | .enumTrain => true
  | st => lowerStr (pyStopTypeStr st) == "train"

/-- Embeds `CTAdb.stops` (src/cta/static.py:282-338) as invoked with only the
`stop_type` keyword — the single filter used by `closest_stops` (line 687) and
by the claims; all other keyword filters are `None` at every modelled call
site, so their `WHERE` clauses never fire.  The `feed` parameter is the
contents of the `stops` table in row order. -/
def ctadbStops (feed : List GtfsStop) (stop_type : Option PyStopType) :
    List GtfsStop :=
  match stop_type with
  | none => feed
  | some st =>
    if pyStopTypeTruthy st then
      if isTrainStopType st then
        feed.filter (fun s => 30000 ≤ s.stop_id)
      else
        feed.filter (fun s => s.parent_station < 30000)
    else feed

/-- The `is_train_station` / `is_parent_station` flags computed for each row by
`save_stop_transfers` (src/cta/static.py:69-77). -/
def xferFlags (stop_id : Int) : Bool × Bool :=
  if 40000 ≤ stop_id then (true, true)
  else if 30000 ≤ stop_id then (true, false)
  else (false, false)

/-- The candidate list of the static `closest_stops` after ranking:
`data = ctadb.stops(stop_type=stop_type)` sorted by distance to the origin
(src/cta/static.py:687-688).

Modelled from the spec: the sort key on line 688 is
`utils.distance(utils.Point(x["stop_lat"], x["stop_lon"]), point)`, and
`utils.distance` / `utils.Point` are absent from `src/cta/utils.py`; per spec
§4.1 the key is the great-circle distance from the origin, so it is taken here
as an arbitrary function `key` of the stop (one key per origin).  Every theorem
below quantifies over `key`, so nothing depends on the modelling choice. -/
def staticRanked (feed : List GtfsStop) (key : GtfsStop → ℚ)
    (stop_type : Option PyStopType) : List GtfsStop :=
  sortByKey key (ctadbStops feed stop_type)

/-- Embeds the module-level `closest_stops` (src/cta/static.py:678-704), the
coordinate-origin path (the free-text path additionally geocodes first, see
`staticClosestStopsByQuery`).  Note the hierarchy options are gated by
`stop_type == "Train"`, a comparison against the raw string. -/
def staticClosestStops (feed : List GtfsStop) (key : GtfsStop → ℚ) (number : ℕ)
    (stop_type : Option PyStopType)
    (child_stops_only parent_stops_only group_child_stops : Option Bool) :
    List GtfsStop :=
  let data := staticRanked feed key stop_type
  if stop_type = some (.pystr "Train") then
    if group_child_stops = some true then
      let parent_stop_data := data.filter (fun d => 40000 ≤ d.stop_id)
      let parent_stations := (parent_stop_data.take number).map (fun d => d.stop_id)
      data.filter (fun d => d.parent_station ∈ parent_stations)
    else
      let data2 :=
        if parent_stops_only = some true then
          data.filter (fun d => 40000 ≤ d.stop_id)
        else if child_stops_only = some true then
          data.filter (fun d => 30000 ≤ d.stop_id ∧ d.stop_id < 40000)
        else data
      data2.take number
  else data.take number

/-- The selected parent ids of the grouping branch (src/cta/static.py:692-693). -/
def staticSelectedParents (feed : List GtfsStop) (key : GtfsStop → ℚ)
    (number : ℕ) (stop_type : Option PyStopType) : List Int :=
  (((staticRanked feed key stop_type).filter
      (fun d => 40000 ≤ d.stop_id)).take number).map (fun d => d.stop_id)

/-- The survivors of the non-grouped paths just before `data[:number]`
(src/cta/static.py:698-704): the ranked candidates, tier-filtered when
`stop_type == "Train"` and a tier flag is set. -/
def staticTierFiltered (feed : List GtfsStop) (key : GtfsStop → ℚ)
    (stop_type : Option PyStopType)
    (child_stops_only parent_stops_only : Option Bool) : List GtfsStop :=
  let data := staticRanked feed key stop_type
  if stop_type = some (.pystr "Train") then
    if parent_stops_only = some true then
      data.filter (fun d => 40000 ≤ d.stop_id)
    else if child_stops_only = some true then
      data.filter (fun d => 30000 ≤ d.stop_id ∧ d.stop_id < 40000)
    else data
  else data

/-- A row of `self.__cta_stops`: `get_stops()` with `stop_lat`/`stop_lon`
renamed to `lat`/`lon`, the `map_id`/`stop_code`/`location_type` columns
dropped, and `stop_id` cast to int. -/
structure CtaStop where
  stop_id : Int
  stop_name : String
  stop_desc : String
  lat : ℚ
  lon : ℚ
deriving DecidableEq, Repr

/-- A row of `self.__route_stops` (`get_route_transfers().astype('str')`):
the route↔stop transfer table, all cells strings. -/
structure RouteStop where
  rt : String
  stop_id : String
deriving DecidableEq, Repr

/-- A row of `self.__train_stops` (`get_train_stations()`), restricted to the
columns the resolver reads. -/
structure TrainStation where
  stop_id : String
  direction_id : String
deriving DecidableEq, Repr

/-- A row of the returned frame: the `type` and `dir` columns inserted by
`closest_stops`, the stop record, and the `dist` column.  (The final
`astype('str')` rendering of all cells to strings is not modelled; the claims
are about ids, membership and order.) -/
structure RankedStop where
  rtype : String
  dir : Option String
  stop : CtaStop
  dist : ℚ
deriving DecidableEq, Repr

/-- Python exceptions that the embedded code can raise. -/
inductive PyErr
  | indexError     -- `response.json()[0]` on an empty result list
  | requestsError  -- a network exception propagating out of `requests.get`
  | valueError     -- pandas `.item()` on a selection that is not a single row
  | geocodeError   -- the spec's `GeocodeError`; no such class exists in the code
deriving DecidableEq, Repr

instance {ε α : Type} [DecidableEq ε] [DecidableEq α] :
    DecidableEq (Except ε α) := fun x y =>
  match x, y with
  | .ok a, .ok b =>
    if h : a = b then .isTrue (by rw [h])
    else .isFalse (by intro hc; cases hc; exact h rfl)
  | .error a, .error b =>
    if h : a = b then .isTrue (by rw [h])
    else .isFalse (by intro hc; cases hc; exact h rfl)
  | .ok _, .error _ => .isFalse (by intro hc; cases hc)
  | .error _, .ok _ => .isFalse (by intro hc; cases hc)

/-- The inputs of one `StopSearch.closest_stops` call.  `gd` stands for the
`get_distance(lat, lon, rec["lat"], rec["lon"])` calls (src/cta/cta.py:2195,
2199): the claims quantify over it, and a rational-valued function is an exact
model of the float-valued one for the ranking and filtering logic, which only
compares keys.  `busdirs`/`traindirs` are the per-type direction lists after
the normalization block (src/cta/cta.py:2082-2107), already mapped through
`get_direction_symbol`; `busLimit`/`trainLimit` after the limit block
(src/cta/cta.py:2109-2119). -/
structure SSInput where
  ctaStops : List CtaStop
  routeStops : List RouteStop
  trainStations : List TrainStation
  gd : ℚ → ℚ → ℚ → ℚ → ℚ
  lat : ℚ
  lon : ℚ
  routes : Option (List String)
  excludeStops : Option (List String)
  busdirs : Option (List String)
  traindirs : Option (List String)
  busLimit : ℕ
  trainLimit : ℕ
  stop_type : Option String

/-- The `if routes is not None: ... elif exclude_stops is not None: ...` block
(src/cta/cta.py:2147-2182), applied to one of the two per-type frames.  Note
the `elif`: when `routes` is given, `exclude_stops` is never consulted. -/
def applyRouteFilter (routes excludeStops : Option (List String))
    (routeStops : List RouteStop) (stops : List CtaStop) : List CtaStop :=
  match routes with
  | some rs =>
    let rs' := rs.map pyTitle
    let sels := (routeStops.filter (fun q => q.rt ∈ rs')).map (fun q => q.stop_id)
    stops.filter (fun s => toString s.stop_id ∈ sels)
  | none =>
    match excludeStops with
    | some ex =>
      let ex' := ex.map pyTitle
      stops.filter (fun s => toString s.stop_id ∉ ex')
    | none => stops

/-- Embeds `translate_bus_dir` (src/cta/utils_cta.py:134-142): direction by substring
search in the stop description; `None` when no direction word occurs. -/
def translateBusDir (stop_desc : String) : Option String :=
  if strContains (lowerStr stop_desc) "northbound" then some "N"
  else if strContains (lowerStr stop_desc) "southbound" then some "S"
  else if strContains (lowerStr stop_desc) "eastbound" then some "E"
  else if strContains (lowerStr stop_desc) "westbound" then some "W"
  else none

/-- Embeds `df[df["dir"].isin(dirs)]`: a row with direction `None` never matches. -/
def dirMatches (dirs : Option (List String)) (d : Option String) : Bool :=
  match dirs with
  | none => true
  | some l => match d with
    | some d' => d' ∈ l
    | none => false

/-- The bus half of the pipeline: split (`stop_id < 30000`), route/exclusion
filter, distance column, ascending sort, `type`/`dir` columns, direction
filter, `head(bus_limit)` (src/cta/cta.py:2142-2143, 2147-2182, 2194-2195,
2204-2209, 2224-2225, 2229). -/
def busPipeline (inp : SSInput) : List RankedStop :=
  let busStops := inp.ctaStops.filter (fun s => s.stop_id < 30000)
  let busStops := applyRouteFilter inp.routes inp.excludeStops inp.routeStops busStops
  let withDist := busStops.map (fun r => (r, inp.gd inp.lat inp.lon r.lat r.lon))
  let sorted := sortByKey (fun x => x.2) withDist
  let ranked := sorted.map (fun x =>
    { rtype := "bus", dir := translateBusDir x.1.stop_desc, stop := x.1, dist := x.2 })
  let ranked := ranked.filter (fun x => dirMatches inp.busdirs x.dir)
  ranked.take inp.busLimit

/-- The train `dir` column (src/cta/cta.py:2217-2221): for each ranked train
stop, `train_stops_only[train_stops_only["stop_id"]==str(s.stop_id)]
.direction_id.item()`; `.item()` raises `ValueError` unless the selection has
exactly one row. -/
def trainDirLookup (trainStations : List TrainStation) (s : CtaStop) :
    Except PyErr String :=
  match trainStations.filter (fun t => t.stop_id == toString s.stop_id) with
  | [t] => .ok t.direction_id
  | _ => .error .valueError

/-- The `for idx in range(len(train_stop_df))` loop building the train `dir`
column row by row (src/cta/cta.py:2217-2221); it stops at the first failing
`.item()` lookup with that exception, like the Python loop. -/
def trainDirColumn (trainStations : List TrainStation) :
    List (CtaStop × ℚ) → Except PyErr (List RankedStop)
  | [] => .ok []
  | x :: rest =>
    match trainDirLookup trainStations x.1 with
    | .error e => .error e
    | .ok d =>
      match trainDirColumn trainStations rest with
      | .error e => .error e
      | .ok tail =>
        .ok ({ rtype := "train", dir := some d, stop := x.1, dist := x.2 } :: tail)

/-- The train half of the pipeline: split (`stop_id` between 30000 and 39999
inclusive), route/exclusion filter, distance column, ascending sort, `type` and
looked-up `dir` columns, direction filter, `head(train_limit)`
(src/cta/cta.py:2145, 2147-2182, 2198-2199, 2212-2221, 2226-2227, 2231). -/
def trainPipeline (inp : SSInput) : Except PyErr (List RankedStop) :=
  let trainStops := inp.ctaStops.filter
    (fun s => 30000 ≤ s.stop_id ∧ s.stop_id ≤ 39999)
  let trainStops := applyRouteFilter inp.routes inp.excludeStops inp.routeStops trainStops
  let withDist := trainStops.map (fun r => (r, inp.gd inp.lat inp.lon r.lat r.lon))
  let sorted := sortByKey (fun x => x.2) withDist
  match trainDirColumn inp.trainStations sorted with
  | .error e => .error e
  | .ok ranked =>
    .ok ((ranked.filter (fun x => dirMatches inp.traindirs x.dir)).take inp.trainLimit)

/-- Embeds `StopSearch.closest_stops` (src/cta/cta.py:2038-2239).  Both halves
are computed before the final branch — in particular the train `dir` lookups
run (and can raise) even when only bus results are returned, exactly as in the
source.  The branch is src/cta/cta.py:2234-2239. -/
def stopSearchClosestStops (inp : SSInput) : Except PyErr (List RankedStop) :=
  let busList := busPipeline inp
  match trainPipeline inp with
  | .error e => .error e
  | .ok trainList =>
    if trainList = [] ∨ inp.stop_type = some "bus" then
      .ok busList
    else if busList = [] ∨ inp.stop_type = some "train" ∨
        inp.stop_type = some "l" ∨ inp.stop_type = some "rail" then
      .ok trainList
    else
      .ok (busList ++ trainList)

/-- One element of the Nominatim JSON response consumed by `geolocate`. -/
structure GeoPlace where
  lat : ℚ
  lon : ℚ
deriving DecidableEq, Repr

/-- The outcome of one outbound geocoding HTTP request. -/
inductive GeoResponse
  | netFailure          -- `requests.get` raises (connection error, timeout, ...)
  | ok (places : List GeoPlace)
deriving DecidableEq, Repr

/-- Embeds `utils.geolocate` (src/cta/utils.py:130-146).  `service n` is the
outcome the network would produce for the n-th request of the call;
`geolocate` issues exactly one request (index 0): a raised network exception
propagates uncaught, and on success `response.json()[0]` raises `IndexError`
when the service returned zero results.  No retry loop and no `GeocodeError`
class exist anywhere in the source. -/
def geolocate (service : ℕ → GeoResponse) : Except PyErr GeoPlace :=
  match service 0 with
  | .netFailure => .error .requestsError
  | .ok [] => .error .indexError
  | .ok (p :: _) => .ok p

/-- The free-text path of the static `closest_stops`
(src/cta/static.py:683-685): geocode the query, take the first place, then
resolve as from coordinates.

Modelled from the spec: line 684 calls `utils.geosearch(q)`, which is absent
from `src/cta/utils.py`; the geocoding routine that is present (and cited) is
`geolocate`, and per spec §4.4/§6 the adapter resolves the query and uses the
first returned match, which is exactly `geolocate`'s shape.  `keyOf pt` is the
distance-from-`pt` ranking key (see `staticRanked`). -/
def staticClosestStopsByQuery (service : ℕ → GeoResponse)
    (feed : List GtfsStop) (keyOf : GeoPlace → GtfsStop → ℚ) (number : ℕ)
    (stop_type : Option PyStopType)
    (child_stops_only parent_stops_only group_child_stops : Option Bool) :
    Except PyErr (List GtfsStop) := do
  let pt ← geolocate service
  return staticClosestStops feed (keyOf pt) number stop_type
    child_stops_only parent_stops_only group_child_stops

/-- The units of the `haversine` PyPI package that this development mentions
(`get_distance` defaults to `'ft'`; the spec asserts miles). -/
inductive HavUnit
  | km
  | mi
  | ft
deriving DecidableEq, Repr

/-- The `haversine` package's conversion factors from kilometres
(`haversine._CONVERSIONS`). -/
noncomputable def havUnitConv : HavUnit → ℝ
  | .km => 1
  | .mi => 0.621371192
  | .ft => 3280.839895013

/-- Embeds `haversine.get_avg_earth_radius`: the mean Earth radius
(`_AVG_EARTH_RADIUS_KM = 6371.0088`) expressed in the requested unit. -/
noncomputable def avgEarthRadius (u : HavUnit) : ℝ := 6371.0088 * havUnitConv u

/-- Embeds `math.radians`. -/
noncomputable def havRadians (d : ℝ) : ℝ := d * Real.pi / 180

/-- The `haversine.haversine` great-circle computation: degrees to radians,
then `2 * r * asin(sqrt(sin²(Δφ/2) + cos φ₁ · cos φ₂ · sin²(Δλ/2)))`. -/
noncomputable def haversineLib (lat1 lon1 lat2 lon2 : ℝ) (unit : HavUnit) : ℝ :=
  let p1 := havRadians lat1
  let g1 := havRadians lon1
  let p2 := havRadians lat2
  let g2 := havRadians lon2
  let dlat := p2 - p1
  let dlng := g2 - g1
  let d := Real.sin (dlat * 0.5) ^ 2 +
    Real.cos p1 * Real.cos p2 * Real.sin (dlng * 0.5) ^ 2
  2 * avgEarthRadius unit * Real.arcsin (Real.sqrt d)

/-- Python `round(x, 15)` as applied by `get_distance` to each coordinate.
(CPython rounds ties to even; `round` here rounds ties up — the two differ only
at exact odd multiples of `5·10⁻¹⁶`, immaterial to every statement below, all
of which hold for either choice or evaluate it at integers.) -/
noncomputable def pyRound15 (x : ℝ) : ℝ := (round (x * 10 ^ 15) : ℤ) / 10 ^ 15

/-- Embeds `utils.get_distance` (src/cta/utils.py:148-167): round the four
coordinates to 15 decimal places and call `haversine` — with the unit
defaulting to `'ft'`, feet. -/
noncomputable def get_distance (x1 y1 x2 y2 : ℝ) (unit : HavUnit := .ft) : ℝ :=
  haversineLib (pyRound15 x1) (pyRound15 y1) (pyRound15 x2) (pyRound15 y2) unit

/-- A minimal train feed: parent station 40001 with child platforms
30001/30002 (`parent_station` of the parent itself normalizes to 0). -/
def demoParent : GtfsStop :=
  { stop_id := 40001, stop_name := "", stop_desc := "", stop_lat := 0,
    stop_lon := 0, location_type := 1, parent_station := 0,
    wheelchair_boarding := 0 }

def demoChildN : GtfsStop :=
  { stop_id := 30001, stop_name := "", stop_desc := "", stop_lat := 0,
    stop_lon := 0, location_type := 0, parent_station := 40001,
    wheelchair_boarding := 0 }

def demoChildS : GtfsStop :=
  { stop_id := 30002, stop_name := "", stop_desc := "", stop_lat := 0,
    stop_lon := 0, location_type := 0, parent_station := 40001,
    wheelchair_boarding := 0 }

def demoFeedTrain : List GtfsStop := [demoParent, demoChildN, demoChildS]

/-- A ranking key under which the parent station 40001 is strictly closest. -/
def demoKeyTrain (s : GtfsStop) : ℚ :=
  if s.stop_id = 40001 then 0 else if s.stop_id = 30001 then 1 else 2

/-- A feed exercising the BUS branch of `CTAdb.stops`: a bus stop, a parent
station and a child platform. -/
def demoFeedMixed : List GtfsStop :=
  [{ stop_id := 100, stop_name := "", stop_desc := "", stop_lat := 0,
     stop_lon := 0, location_type := 0, parent_station := 0,
     wheelchair_boarding := 0 },
   demoParent, demoChildN]

/-- The `stop_type` argument of the calls the grouping claim is about: the
literal string `"Train"` (the only value on which the grouping branch fires,
see C10). -/
def trainArg : Option PyStopType := some (.pystr "Train")

/-- The survivors of the non-grouped paths, before ranking: the inventory
for the requested `stop_type`, tier-filtered when `stop_type == "Train"` and a
tier flag is set (src/cta/static.py:687, 698-701). -/
def staticSurvivors (feed : List GtfsStop) (st : Option PyStopType)
    (c p : Option Bool) : List GtfsStop :=
  let cands := ctadbStops feed st
  if st = some (.pystr "Train") then
    if p = some true then cands.filter (fun d => 40000 ≤ d.stop_id)
    else if c = some true then
      cands.filter (fun d => 30000 ≤ d.stop_id ∧ d.stop_id < 40000)
    else cands
  else cands

def demoBusA : CtaStop :=
  { stop_id := 100, stop_name := "", stop_desc := "", lat := 0, lon := 0 }

def demoBusB : CtaStop :=
  { stop_id := 200, stop_name := "", stop_desc := "", lat := 0, lon := 0 }

def demoTrainStop : CtaStop :=
  { stop_id := 30001, stop_name := "", stop_desc := "", lat := 0, lon := 0 }

/-- A two-bus-stop search scenario: both stops serve route 22, stop 100 is also
on the exclusion list. -/
def demoSSBase : SSInput :=
  { ctaStops := [demoBusA, demoBusB],
    routeStops := [{ rt := "22", stop_id := "100" }, { rt := "22", stop_id := "200" }],
    trainStations := [], gd := fun _ _ _ _ => 0, lat := 0, lon := 0,
    routes := some ["22"], excludeStops := some ["100"],
    busdirs := none, traindirs := none, busLimit := 3, trainLimit := 3,
    stop_type := none }

/-- One bus stop and one train platform, both at the origin. -/
def demoSSMixed : SSInput :=
  { ctaStops := [demoBusA, demoTrainStop], routeStops := [],
    trainStations := [{ stop_id := "30001", direction_id := "N" }],
    gd := fun _ _ _ _ => 0, lat := 0, lon := 0,
    routes := none, excludeStops := none, busdirs := none, traindirs := none,
    busLimit := 3, trainLimit := 3, stop_type := none }

/-- The mixed scenario queried with a route id absent from the transfer table. -/
def demoSSNoRoute : SSInput :=
  { demoSSMixed with
    routes := some ["NOPE"],
    routeStops := [{ rt := "22", stop_id := "100" }] }

def demoTrainRanked : RankedStop :=
  { rtype := "train", dir := some "N", stop := demoTrainStop, dist := 0 }

def demoSSNoRoutes : SSInput := { demoSSBase with routes := none }

/-- The two-bus-stop scenario with no routes filter and every inventory stop on
the exclusion list: the candidate set is emptied by `exclude_stops` alone. -/
def demoSSAllExcluded : SSInput :=
  { demoSSBase with routes := none, excludeStops := some ["100", "200"] }

/- Theorems. -/

theorem insertByKey_perm {α : Type} (key : α → ℚ) (x : α) (l : List α) :
    List.Perm (insertByKey key x l) (x :: l) := by
  induction l with
  | nil => simp [insertByKey]
  | cons y t ih =>
    by_cases h : key x ≤ key y
    · simp [insertByKey, h]
    · simp only [insertByKey, if_neg h]
      exact ((ih.cons y).trans (List.Perm.swap x y t))

theorem sortByKey_perm {α : Type} (key : α → ℚ) (l : List α) :
    List.Perm (sortByKey key l) l := by
  induction l with
  | nil => simp [sortByKey]
  | cons x t ih =>
    exact (insertByKey_perm key x (sortByKey key t)).trans (ih.cons x)

theorem mem_sortByKey {α : Type} (key : α → ℚ) (l : List α) (a : α) :
    a ∈ sortByKey key l ↔ a ∈ l :=
  (sortByKey_perm key l).mem_iff

theorem insertByKey_pairwise {α : Type} (key : α → ℚ) (x : α) (l : List α)
    (h : l.Pairwise (fun a b => key a ≤ key b)) :
    (insertByKey key x l).Pairwise (fun a b => key a ≤ key b) := by
  induction l with
  | nil => simp [insertByKey]
  | cons y t ih =>
    rcases List.pairwise_cons.mp h with ⟨hy, ht⟩
    by_cases hxy : key x ≤ key y
    · rw [insertByKey, if_pos hxy]
      refine List.pairwise_cons.mpr ⟨?_, h⟩
      intro b hb
      rcases List.mem_cons.mp hb with rfl | hb
      · exact hxy
      · exact le_trans hxy (hy _ hb)
    · rw [insertByKey, if_neg hxy]
      refine List.pairwise_cons.mpr ⟨?_, ih ht⟩
      intro b hb
      have hb' := (insertByKey_perm key x t).mem_iff.mp hb
      rcases List.mem_cons.mp hb' with rfl | hb'
      · exact le_of_not_le hxy
      · exact hy _ hb'

theorem sortByKey_pairwise {α : Type} (key : α → ℚ) (l : List α) :
    (sortByKey key l).Pairwise (fun a b => key a ≤ key b) := by
  induction l with
  | nil => simp [sortByKey]
  | cons x t ih => exact insertByKey_pairwise key x _ ih

/-- In a list sorted by `key`, everything kept by `take n` has a key no larger
than anything discarded by it. -/
theorem pairwise_take_drop {α : Type} (key : α → ℚ) (l : List α) (n : ℕ)
    (h : l.Pairwise (fun a b => key a ≤ key b)) :
    ∀ a ∈ l.take n, ∀ b ∈ l.drop n, key a ≤ key b := by
  have h' : (l.take n ++ l.drop n).Pairwise (fun a b => key a ≤ key b) := by
    rw [List.take_append_drop]; exact h
  exact fun a ha b hb => (List.pairwise_append.mp h').2.2 a ha b hb

theorem staticClosestStops_not_grouped (feed : List GtfsStop)
    (key : GtfsStop → ℚ) (number : ℕ) (stop_type : Option PyStopType)
    (c p g : Option Bool)
    (h : ¬(stop_type = some (.pystr "Train") ∧ g = some true)) :
    staticClosestStops feed key number stop_type c p g =
      (staticTierFiltered feed key stop_type c p).take number := by
  unfold staticClosestStops staticTierFiltered
  by_cases hst : stop_type = some (.pystr "Train")
  · have hg : ¬ g = some true := fun hg => h ⟨hst, hg⟩
    simp [hst, hg]
  · simp [hst]

theorem pyRound15_intCast (n : ℤ) : pyRound15 (n : ℝ) = n := by
  unfold pyRound15
  rw [show ((n : ℝ) * 10 ^ 15) = ((n * 10 ^ 15 : ℤ) : ℝ) by push_cast; ring,
    round_intCast]
  push_cast
  field_simp
  norm_num

theorem ctadbStops_trainStr (feed : List GtfsStop) :
    ctadbStops feed (some (.pystr "Train")) =
      feed.filter (fun s => 30000 ≤ s.stop_id) := rfl

theorem ctadbStops_enumTrain (feed : List GtfsStop) :
    ctadbStops feed (some .enumTrain) =
      feed.filter (fun s => 30000 ≤ s.stop_id) := rfl

theorem ctadbStops_enumBus (feed : List GtfsStop) :
    ctadbStops feed (some .enumBus) =
      feed.filter (fun s => s.parent_station < 30000) := rfl

/-- C10: in the static-module `closest_stops`, the train hierarchy options take
effect only when `stop_type == "Train"` holds for the literal string; a call
passing the `StopType.TRAIN` enum member fails that test, the hierarchy options
are ignored (the result does not depend on them), and the function returns the
plain distance-sorted top-`number` slice of all train stops — child platforms
and parent stations mixed; concretely, with the parent station nearest and
`group_child_stops=True`, the returned ids still lead with the parent. -/
theorem enum_train_hierarchy_ignored :
    (∀ (feed : List GtfsStop) (key : GtfsStop → ℚ) (n : ℕ) (c p g : Option Bool),
      staticClosestStops feed key n (some .enumTrain) c p g =
        (sortByKey key (feed.filter (fun s => 30000 ≤ s.stop_id))).take n) ∧
    (∀ (feed : List GtfsStop) (key : GtfsStop → ℚ) (n : ℕ)
        (c p g c' p' g' : Option Bool),
      staticClosestStops feed key n (some .enumTrain) c p g =
        staticClosestStops feed key n (some .enumTrain) c' p' g') ∧
    ((staticClosestStops demoFeedTrain demoKeyTrain 2 (some .enumTrain)
        none none (some true)).map (fun s => s.stop_id) = [40001, 30001]) := by
  refine ⟨?_, ?_, ?_⟩
  · intro feed key n c p g
    simp [staticClosestStops, staticRanked, ctadbStops_enumTrain]
  · intro feed key n c p g c' p' g'
    simp [staticClosestStops]
  · decide

/-- C5 counterexample: filtering the inventory by `stop_type=BUS` does not
return exactly the stops with id below 30000 — the BUS branch of `CTAdb.stops`
filters on `parent_station < 30000`, so a train parent station (id 40001,
normalized `parent_station` 0) is returned alongside the bus stop. -/
theorem stop_type_partition_counterexample :
    ((ctadbStops demoFeedMixed (some .enumBus)).map (fun s => s.stop_id) =
      [100, 40001]) ∧
    ¬(∀ s ∈ ctadbStops demoFeedMixed (some .enumBus), s.stop_id < 30000) := by
  decide

/-- C5 amended: the TRAIN filter of the Stop Inventory Accessor returns exactly
the stops with id ≥ 30000 (for the enum member and for any string lowercasing
to "train"); the BUS (else) branch filters on `parent_station < 30000` instead
of the id range, which under the normalized-feed invariants (bus stops and
parent stations carry `parent_station = 0`, child platforms a parent in
[40000, 50000)) returns the bus stops together with the train parent stations;
`save_stop_transfers` does flag rows by the id-range partition. -/
theorem stop_type_partition_amended :
    (∀ (feed : List GtfsStop), ∀ st : PyStopType, isTrainStopType st = true →
      ctadbStops feed (some st) = feed.filter (fun s => 30000 ≤ s.stop_id)) ∧
    (∀ feed : List GtfsStop,
      ctadbStops feed (some .enumBus) =
        feed.filter (fun s => s.parent_station < 30000)) ∧
    (∀ feed : List GtfsStop,
      (∀ s ∈ feed, s.stop_id < 30000 → s.parent_station = 0) →
      (∀ s ∈ feed, 30000 ≤ s.stop_id → s.stop_id < 40000 →
        40000 ≤ s.parent_station) →
      (∀ s ∈ feed, 40000 ≤ s.stop_id → s.parent_station = 0) →
      ∀ s ∈ feed,
        (s ∈ ctadbStops feed (some .enumBus) ↔
          (s.stop_id < 30000 ∨ 40000 ≤ s.stop_id)) ∧
        (s ∈ ctadbStops feed (some .enumTrain) ↔ 30000 ≤ s.stop_id)) ∧
    (∀ stop_id : Int,
      ((xferFlags stop_id).1 = true ↔ 30000 ≤ stop_id) ∧
      ((xferFlags stop_id).2 = true ↔ 40000 ≤ stop_id)) := by
  refine ⟨?_, ?_, ?_, ?_⟩
  · intro feed st hst
    unfold ctadbStops
    have htruthy : pyStopTypeTruthy st = true := by
      cases st with
      | enumBus => rfl
      | enumTrain => rfl
      | pystr s =>
        have hs : s ≠ "" := by
          intro h
          subst h
          exact absurd hst (by decide)
        simp [pyStopTypeTruthy, hs]
    simp [htruthy, hst]
  · intro feed; rfl
  · intro feed hbus hchild hparent s hs
    constructor
    · rw [ctadbStops_enumBus, List.mem_filter]
      constructor
      · rintro ⟨-, hlt⟩
        simp only [decide_eq_true_eq] at hlt
        by_contra hcon
        push_neg at hcon
        obtain ⟨h1, h2⟩ := hcon
        have := hchild s hs h1 h2
        omega
      · intro hcase
        refine ⟨hs, ?_⟩
        simp only [decide_eq_true_eq]
        rcases hcase with h1 | h2
        · rw [hbus s hs h1]; omega
        · rw [hparent s hs h2]; omega
    · rw [ctadbStops_enumTrain, List.mem_filter]
      simp [hs]
  · intro stop_id
    unfold xferFlags
    split_ifs with h4 h3 <;> simp <;> omega

/-- C5 amended, witnessed on the mixed demonstration feed. -/
theorem stop_type_partition_amended_witness :
    ((∀ s ∈ demoFeedMixed, s.stop_id < 30000 → s.parent_station = 0) ∧
     (∀ s ∈ demoFeedMixed, 30000 ≤ s.stop_id → s.stop_id < 40000 →
        40000 ≤ s.parent_station) ∧
     (∀ s ∈ demoFeedMixed, 40000 ≤ s.stop_id → s.parent_station = 0)) ∧
    (demoParent ∈ ctadbStops demoFeedMixed (some .enumBus) ↔
      (demoParent.stop_id < 30000 ∨ 40000 ≤ demoParent.stop_id)) :=
  ⟨⟨by decide, by decide, by decide⟩,
    (stop_type_partition_amended.2.2.1 demoFeedMixed (by decide) (by decide)
      (by decide) demoParent (by decide)).1⟩

theorem staticClosestStops_grouped (feed : List GtfsStop) (key : GtfsStop → ℚ)
    (n : ℕ) (c p : Option Bool) :
    staticClosestStops feed key n trainArg c p (some true) =
      (staticRanked feed key trainArg).filter
        (fun d => d.parent_station ∈ staticSelectedParents feed key n trainArg) := by
  simp [staticClosestStops, staticSelectedParents, trainArg]

theorem staticRanked_pairwise (feed : List GtfsStop) (key : GtfsStop → ℚ)
    (st : Option PyStopType) :
    (staticRanked feed key st).Pairwise (fun a b => key a ≤ key b) :=
  sortByKey_pairwise key (ctadbStops feed st)

/-- When `sA` is the strictly closest parent-tier stop among the ranked
candidates, the top-1 parent selection of the grouping branch is exactly
`[sA.stop_id]`. -/
theorem selectedParents_single (feed : List GtfsStop) (key : GtfsStop → ℚ)
    (st : Option PyStopType) (sA : GtfsStop)
    (hA_data : sA ∈ staticRanked feed key st) (hAge : 40000 ≤ sA.stop_id)
    (hmin : ∀ q ∈ staticRanked feed key st, 40000 ≤ q.stop_id → q ≠ sA →
      key sA < key q) :
    staticSelectedParents feed key 1 st = [sA.stop_id] := by
  have hA_ps : sA ∈ (staticRanked feed key st).filter
      (fun d => decide (40000 ≤ d.stop_id)) :=
    List.mem_filter.mpr ⟨hA_data, by simpa using hAge⟩
  rcases hq : (staticRanked feed key st).filter
      (fun d => decide (40000 ≤ d.stop_id)) with _ | ⟨q, t⟩
  · rw [hq] at hA_ps
    exact absurd hA_ps (List.not_mem_nil sA)
  · have hq_ps : q ∈ (staticRanked feed key st).filter
        (fun d => decide (40000 ≤ d.stop_id)) := by
      rw [hq]; exact List.mem_cons_self q t
    have hq_data : q ∈ staticRanked feed key st := (List.mem_filter.mp hq_ps).1
    have hq_ge : 40000 ≤ q.stop_id := by
      have := (List.mem_filter.mp hq_ps).2
      simpa using this
    have hqA : q = sA := by
      by_contra hqA
      have hlt : key sA < key q := hmin q hq_data hq_ge hqA
      have hA_t : sA ∈ t := by
        rw [hq] at hA_ps
        rcases List.mem_cons.mp hA_ps with h | h
        · exact absurd h.symm hqA
        · exact h
      have hpw : ((staticRanked feed key st).filter
          (fun d => decide (40000 ≤ d.stop_id))).Pairwise
            (fun a b => key a ≤ key b) :=
        (staticRanked_pairwise feed key st).filter _
      rw [hq] at hpw
      have hle : key q ≤ key sA := (List.pairwise_cons.mp hpw).1 sA hA_t
      exact absurd hle (not_le.mpr hlt)
    unfold staticSelectedParents
    rw [hq, hqA]
    rfl

/-- C1: with `stop_type` the string `"Train"` and `group_child_stops=True`, the
resolver first selects the top-`limit` parent ids among the distance-ranked
parent-tier stops and then returns every ranked candidate whose
`parent_station` is a selected parent — all child platforms of each selected
parent, not truncated to the limit, and never one child without its siblings;
in particular, whenever parent 40001 is the strictly closest parent-tier stop
and its children are exactly the platforms 30001 and 30002, the call with
`limit=1` returns exactly the id set {30001, 30002}. -/
theorem groupChildStops_expands_selected_parents :
    (∀ (feed : List GtfsStop) (key : GtfsStop → ℚ) (n : ℕ) (c p : Option Bool),
      (∀ s ∈ staticRanked feed key trainArg,
        s.parent_station ∈ staticSelectedParents feed key n trainArg →
        s ∈ staticClosestStops feed key n trainArg c p (some true)) ∧
      (∀ s ∈ staticRanked feed key trainArg,
       ∀ t ∈ staticRanked feed key trainArg,
        s.parent_station = t.parent_station →
        (s ∈ staticClosestStops feed key n trainArg c p (some true) ↔
         t ∈ staticClosestStops feed key n trainArg c p (some true)))) ∧
    (∀ (feed : List GtfsStop) (key : GtfsStop → ℚ) (c p : Option Bool)
        (sA sB sC : GtfsStop),
      sA ∈ feed → sA.stop_id = 40001 →
      sB ∈ feed → sB.stop_id = 30001 → sB.parent_station = 40001 →
      sC ∈ feed → sC.stop_id = 30002 → sC.parent_station = 40001 →
      (∀ s ∈ feed, s.parent_station = 40001 → s = sB ∨ s = sC) →
      (∀ s ∈ feed, 40000 ≤ s.stop_id → s ≠ sA → key sA < key s) →
      ∀ i : Int,
        (i ∈ (staticClosestStops feed key 1 trainArg c p
            (some true)).map (fun d => d.stop_id)) ↔
          (i = 30001 ∨ i = 30002)) := by
  constructor
  · intro feed key n c p
    constructor
    · intro s hs hps
      rw [staticClosestStops_grouped]
      exact List.mem_filter.mpr ⟨hs, by simpa using hps⟩
    · intro s hs t ht hst
      rw [staticClosestStops_grouped]
      simp only [List.mem_filter, decide_eq_true_eq, hst]
      constructor
      · rintro ⟨-, h⟩; exact ⟨ht, h⟩
      · rintro ⟨-, h⟩; exact ⟨hs, h⟩
  · intro feed key c p sA sB sC hAmem hAid hBmem hBid hBps hCmem hCid hCps
      hchildren hclosest i
    have hmem_data : ∀ x : GtfsStop,
        x ∈ staticRanked feed key trainArg ↔ (x ∈ feed ∧ 30000 ≤ x.stop_id) := by
      intro x
      unfold staticRanked
      rw [mem_sortByKey, trainArg, ctadbStops_trainStr, List.mem_filter]
      simp
    have hA_data : sA ∈ staticRanked feed key trainArg :=
      (hmem_data sA).mpr ⟨hAmem, by rw [hAid]; omega⟩
    have hsel : staticSelectedParents feed key 1 trainArg = [sA.stop_id] := by
      refine selectedParents_single feed key trainArg sA hA_data
        (by rw [hAid]; omega) ?_
      intro q hq hqge hqA
      exact hclosest q ((hmem_data q).mp hq).1 hqge hqA
    rw [staticClosestStops_grouped, hsel]
    constructor
    · intro hi
      rcases List.mem_map.mp hi with ⟨d, hd, hdi⟩
      have hd' := List.mem_filter.mp hd
      have hdps : d.parent_station = 40001 := by
        have := hd'.2
        simp only [List.mem_singleton, decide_eq_true_eq, hAid] at this
        exact this
      have hdfeed : d ∈ feed := ((hmem_data d).mp hd'.1).1
      rcases hchildren d hdfeed hdps with rfl | rfl
      · left; rw [← hdi, hBid]
      · right; rw [← hdi, hCid]
    · intro hi
      rcases hi with rfl | rfl
      · refine List.mem_map.mpr ⟨sB, ?_, hBid⟩
        refine List.mem_filter.mpr ⟨(hmem_data sB).mpr ⟨hBmem, by rw [hBid]; omega⟩, ?_⟩
        simp [hBps, hAid]
      · refine List.mem_map.mpr ⟨sC, ?_, hCid⟩
        refine List.mem_filter.mpr ⟨(hmem_data sC).mpr ⟨hCmem, by rw [hCid]; omega⟩, ?_⟩
        simp [hCps, hAid]

/-- C1, witnessed on the demonstration feed: parent 40001 strictly closest,
children exactly 30001/30002, limit 1 — both children and nothing else. -/
theorem groupChildStops_expands_selected_parents_witness :
    (demoParent ∈ demoFeedTrain ∧ demoParent.stop_id = 40001 ∧
     demoChildN ∈ demoFeedTrain ∧ demoChildN.stop_id = 30001 ∧
     demoChildN.parent_station = 40001 ∧
     demoChildS ∈ demoFeedTrain ∧ demoChildS.stop_id = 30002 ∧
     demoChildS.parent_station = 40001 ∧
     (∀ s ∈ demoFeedTrain, s.parent_station = 40001 →
        s = demoChildN ∨ s = demoChildS) ∧
     (∀ s ∈ demoFeedTrain, 40000 ≤ s.stop_id → s ≠ demoParent →
        demoKeyTrain demoParent < demoKeyTrain s)) ∧
    (∀ i : Int,
      (i ∈ (staticClosestStops demoFeedTrain demoKeyTrain 1 trainArg none none
          (some true)).map (fun d => d.stop_id)) ↔ (i = 30001 ∨ i = 30002)) :=
  ⟨⟨by decide, by decide, by decide, by decide, by decide, by decide, by decide,
    by decide, by decide, by decide⟩,
   groupChildStops_expands_selected_parents.2 demoFeedTrain demoKeyTrain
     none none demoParent demoChildN demoChildS (by decide) (by decide)
     (by decide) (by decide) (by decide) (by decide) (by decide) (by decide)
     (by decide) (by decide)⟩

theorem staticTierFiltered_pairwise (feed : List GtfsStop)
    (key : GtfsStop → ℚ) (st : Option PyStopType) (c p : Option Bool) :
    (staticTierFiltered feed key st c p).Pairwise
      (fun a b => key a ≤ key b) := by
  simp only [staticTierFiltered]
  split_ifs with h1 h2 h3
  · exact (staticRanked_pairwise feed key st).filter _
  · exact (staticRanked_pairwise feed key st).filter _
  · exact staticRanked_pairwise feed key st
  · exact staticRanked_pairwise feed key st

theorem staticTierFiltered_perm (feed : List GtfsStop) (key : GtfsStop → ℚ)
    (st : Option PyStopType) (c p : Option Bool) :
    (staticTierFiltered feed key st c p).Perm (staticSurvivors feed st c p) := by
  simp only [staticTierFiltered, staticSurvivors, staticRanked]
  split_ifs with h1 h2 h3
  · exact (sortByKey_perm key _).filter _
  · exact (sortByKey_perm key _).filter _
  · exact sortByKey_perm key _
  · exact sortByKey_perm key _

/-- C7: with grouping off (as for any call that does not combine the string
`"Train"` with `group_child_stops=True`), `closest_stops` returns the first
`n` entries of the ranked tier-filtered candidates: at most `n` stops, in
non-decreasing key (distance) order, no returned stop farther than any
candidate left out, and the ranked candidate pool a permutation of the
unsorted survivors of the filters. -/
theorem limit_truncation_nearest (feed : List GtfsStop) (key : GtfsStop → ℚ)
    (n : ℕ) (st : Option PyStopType) (c p g : Option Bool)
    (h : ¬(st = some (.pystr "Train") ∧ g = some true)) :
    (staticClosestStops feed key n st c p g).length ≤ n ∧
    (staticClosestStops feed key n st c p g).Pairwise
      (fun a b => key a ≤ key b) ∧
    staticClosestStops feed key n st c p g ++
        (staticTierFiltered feed key st c p).drop n =
      staticTierFiltered feed key st c p ∧
    (∀ a ∈ staticClosestStops feed key n st c p g,
     ∀ b ∈ (staticTierFiltered feed key st c p).drop n, key a ≤ key b) ∧
    (staticTierFiltered feed key st c p).Perm (staticSurvivors feed st c p) := by
  have heq := staticClosestStops_not_grouped feed key n st c p g h
  refine ⟨?_, ?_, ?_, ?_, staticTierFiltered_perm feed key st c p⟩
  · rw [heq, List.length_take]
    exact min_le_left _ _
  · rw [heq]
    exact (staticTierFiltered_pairwise feed key st c p).sublist
      (List.take_sublist n _)
  · rw [heq]
    exact List.take_append_drop n _
  · rw [heq]
    exact pairwise_take_drop key _ n (staticTierFiltered_pairwise feed key st c p)

/-- C7, witnessed: a bus-free train feed queried without hierarchy options and
`limit=1` returns a single stop — the strictly nearest candidate. -/
theorem limit_truncation_nearest_witness :
    ¬((none : Option PyStopType) = some (.pystr "Train") ∧
        (none : Option Bool) = some true) ∧
    (staticClosestStops demoFeedTrain demoKeyTrain 1 none none none none).length ≤ 1 ∧
    (staticClosestStops demoFeedTrain demoKeyTrain 1 none none none none).map
        (fun d => d.stop_id) = [40001] :=
  ⟨by decide,
   (limit_truncation_nearest demoFeedTrain demoKeyTrain 1 none none none none
      (by decide)).1,
   by decide⟩

theorem trainDirColumn_mem (ts : List TrainStation) :
    ∀ (l : List (CtaStop × ℚ)) (res : List RankedStop),
      trainDirColumn ts l = .ok res →
      ∀ x ∈ res, x.rtype = "train" ∧ ∃ pre ∈ l, x.stop = pre.1 := by
  intro l
  induction l with
  | nil =>
    intro res h x hx
    simp only [trainDirColumn] at h
    cases h
    exact absurd hx (List.not_mem_nil x)
  | cons a rest ih =>
    intro res h x hx
    simp only [trainDirColumn] at h
    cases hd : trainDirLookup ts a.1 with
    | error e =>
      simp only [hd] at h
      exact Except.noConfusion h
    | ok d =>
      simp only [hd] at h
      cases ht : trainDirColumn ts rest with
      | error e =>
        simp only [ht] at h
        exact Except.noConfusion h
      | ok tail =>
        simp only [ht] at h
        cases h
        rcases List.mem_cons.mp hx with rfl | hx'
        · exact ⟨rfl, a, List.mem_cons_self a rest, rfl⟩
        · rcases ih tail ht x hx' with ⟨h1, pre, hpre, h2⟩
          exact ⟨h1, pre, List.mem_cons_of_mem a hpre, h2⟩

theorem busPipeline_mem (inp : SSInput) :
    ∀ x ∈ busPipeline inp, x.rtype = "bus" ∧
      x.stop ∈ applyRouteFilter inp.routes inp.excludeStops inp.routeStops
        (inp.ctaStops.filter (fun s => s.stop_id < 30000)) := by
  intro x hx
  unfold busPipeline at hx
  have hx1 := List.mem_of_mem_filter (List.mem_of_mem_take hx)
  rcases List.mem_map.mp hx1 with ⟨y, hy, rfl⟩
  have hy' := (sortByKey_perm (fun y : CtaStop × ℚ => y.2) _).mem_iff.mp hy
  rcases List.mem_map.mp hy' with ⟨r, hr, rfl⟩
  exact ⟨rfl, hr⟩

theorem trainPipeline_ok (inp : SSInput) (tl : List RankedStop)
    (h : trainPipeline inp = .ok tl) :
    ∃ ranked,
      trainDirColumn inp.trainStations
        (sortByKey (fun x => x.2)
          ((applyRouteFilter inp.routes inp.excludeStops inp.routeStops
            (inp.ctaStops.filter
              (fun s => 30000 ≤ s.stop_id ∧ s.stop_id ≤ 39999))).map
            (fun r => (r, inp.gd inp.lat inp.lon r.lat r.lon)))) = .ok ranked ∧
      tl = (ranked.filter
        (fun x => dirMatches inp.traindirs x.dir)).take inp.trainLimit := by
  simp only [trainPipeline] at h
  split at h
  · exact Except.noConfusion h
  · rename_i ranked heq
    cases h
    exact ⟨ranked, heq, rfl⟩

theorem trainPipeline_mem (inp : SSInput) (tl : List RankedStop)
    (h : trainPipeline inp = .ok tl) :
    ∀ x ∈ tl, x.rtype = "train" ∧
      x.stop ∈ applyRouteFilter inp.routes inp.excludeStops inp.routeStops
        (inp.ctaStops.filter
          (fun s => 30000 ≤ s.stop_id ∧ s.stop_id ≤ 39999)) := by
  rcases trainPipeline_ok inp tl h with ⟨ranked, hranked, rfl⟩
  intro x hx
  have hx1 := List.mem_of_mem_filter (List.mem_of_mem_take hx)
  rcases trainDirColumn_mem inp.trainStations _ ranked hranked x hx1 with
    ⟨h1, pre, hpre, h2⟩
  have hpre' := (sortByKey_perm (fun y : CtaStop × ℚ => y.2) _).mem_iff.mp hpre
  rcases List.mem_map.mp hpre' with ⟨r, hr, rfl⟩
  exact ⟨h1, h2 ▸ hr⟩

theorem stopSearchClosestStops_mem (inp : SSInput) (res : List RankedStop)
    (h : stopSearchClosestStops inp = .ok res) :
    ∀ x ∈ res, x ∈ busPipeline inp ∨
      ∃ tl, trainPipeline inp = .ok tl ∧ x ∈ tl := by
  intro x hx
  simp only [stopSearchClosestStops] at h
  split at h
  · exact Except.noConfusion h
  · rename_i tl heq
    split_ifs at h <;> cases h
    · exact Or.inl hx
    · exact Or.inr ⟨_, heq, hx⟩
    · rcases List.mem_append.mp hx with hb | htl
      · exact Or.inl hb
      · exact Or.inr ⟨_, heq, htl⟩

theorem applyRouteFilter_nomatch (rs : List String) (ex : Option (List String))
    (routeStops : List RouteStop) (stops : List CtaStop)
    (h : ∀ q ∈ routeStops, q.rt ∉ rs.map pyTitle) :
    applyRouteFilter (some rs) ex routeStops stops = [] := by
  simp only [applyRouteFilter]
  have hfil : routeStops.filter (fun q => q.rt ∈ rs.map pyTitle) = [] := by
    rw [List.filter_eq_nil_iff]
    intro q hq
    simpa using h q hq
  rw [hfil]
  simp

/-- Whenever both per-type candidate frames are empty after the split and the
route/exclusion filter — whatever combination of inventory, `routes` and
`exclude_stops` produced that — `closest_stops` returns `Except.ok []`. -/
theorem stopSearchClosestStops_empty_frames (inp : SSInput)
    (hbusF : applyRouteFilter inp.routes inp.excludeStops inp.routeStops
      (inp.ctaStops.filter (fun s => s.stop_id < 30000)) = [])
    (htrainF : applyRouteFilter inp.routes inp.excludeStops inp.routeStops
      (inp.ctaStops.filter
        (fun s => 30000 ≤ s.stop_id ∧ s.stop_id ≤ 39999)) = []) :
    stopSearchClosestStops inp = .ok [] := by
  have hbus : busPipeline inp = [] := by
    simp only [busPipeline, hbusF]
    simp [sortByKey]
  have htrain : trainPipeline inp = .ok [] := by
    simp only [trainPipeline, htrainF]
    simp [sortByKey, trainDirColumn]
  unfold stopSearchClosestStops
  rw [htrain]
  simp [hbus]

/-- C8: every filter combination whose candidate set is empty after filtering
makes `closest_stops` return `Except.ok []` — an empty list, not a raised
exception: whenever both per-type candidate frames (the bus/train splits of
the inventory after the route/exclusion filter) are empty, for any inventory,
`routes` and `exclude_stops`, the result is the empty list; in particular a
`routes` filter naming only route ids absent from the route↔stop transfer
table (after the `str.title` normalization) empties both frames and returns
the empty list. -/
theorem empty_filter_empty_result :
    (∀ inp : SSInput,
      applyRouteFilter inp.routes inp.excludeStops inp.routeStops
        (inp.ctaStops.filter (fun s => s.stop_id < 30000)) = [] →
      applyRouteFilter inp.routes inp.excludeStops inp.routeStops
        (inp.ctaStops.filter
          (fun s => 30000 ≤ s.stop_id ∧ s.stop_id ≤ 39999)) = [] →
      stopSearchClosestStops inp = .ok []) ∧
    (∀ (inp : SSInput) (rs : List String), inp.routes = some rs →
      (∀ q ∈ inp.routeStops, q.rt ∉ rs.map pyTitle) →
      stopSearchClosestStops inp = .ok []) := by
  constructor
  · intro inp hbusF htrainF
    exact stopSearchClosestStops_empty_frames inp hbusF htrainF
  · intro inp rs hroutes hnone
    have happ : ∀ stops, applyRouteFilter inp.routes inp.excludeStops
        inp.routeStops stops = [] := by
      intro stops
      rw [hroutes]
      exact applyRouteFilter_nomatch rs _ _ stops hnone
    exact stopSearchClosestStops_empty_frames inp (happ _) (happ _)

/-- C8, witnessed on both conjuncts: a candidate set emptied by
`exclude_stops` alone (no routes filter), and one emptied by a route id absent
from the transfer table. -/
theorem empty_filter_empty_result_witness :
    ((applyRouteFilter demoSSAllExcluded.routes demoSSAllExcluded.excludeStops
        demoSSAllExcluded.routeStops
        (demoSSAllExcluded.ctaStops.filter (fun s => s.stop_id < 30000)) = [] ∧
      applyRouteFilter demoSSAllExcluded.routes demoSSAllExcluded.excludeStops
        demoSSAllExcluded.routeStops
        (demoSSAllExcluded.ctaStops.filter
          (fun s => 30000 ≤ s.stop_id ∧ s.stop_id ≤ 39999)) = []) ∧
     stopSearchClosestStops demoSSAllExcluded = .ok []) ∧
    ((demoSSNoRoute.routes = some ["NOPE"] ∧
      (∀ q ∈ demoSSNoRoute.routeStops, q.rt ∉ ["NOPE"].map pyTitle)) ∧
     stopSearchClosestStops demoSSNoRoute = .ok []) :=
  ⟨⟨⟨by decide, by decide⟩,
    empty_filter_empty_result.1 demoSSAllExcluded (by decide) (by decide)⟩,
   ⟨⟨rfl, by decide⟩,
    empty_filter_empty_result.2 demoSSNoRoute ["NOPE"] rfl (by decide)⟩⟩

/-- C6: when the requested `stop_type` selects neither single type and both
per-type ranked lists are non-empty, `closest_stops` returns the full
bus-ranked list concatenated with the full train-ranked list — every bus row
(`type="bus"`) before every train row (`type="train"`), never interleaved by
distance across the two types. -/
theorem bus_before_train_concat (inp : SSInput) (tl : List RankedStop)
    (h1 : inp.stop_type ≠ some "bus") (h2 : inp.stop_type ≠ some "train")
    (h3 : inp.stop_type ≠ some "l") (h4 : inp.stop_type ≠ some "rail")
    (htr : trainPipeline inp = .ok tl)
    (hbne : busPipeline inp ≠ []) (htne : tl ≠ []) :
    stopSearchClosestStops inp = .ok (busPipeline inp ++ tl) ∧
    (∀ x ∈ busPipeline inp, x.rtype = "bus") ∧
    (∀ x ∈ tl, x.rtype = "train") := by
  refine ⟨?_, ?_, ?_⟩
  · unfold stopSearchClosestStops
    rw [htr]
    have hc1 : ¬(tl = [] ∨ inp.stop_type = some "bus") := by
      rintro (h | h)
      · exact htne h
      · exact h1 h
    have hc2 : ¬(busPipeline inp = [] ∨ inp.stop_type = some "train" ∨
        inp.stop_type = some "l" ∨ inp.stop_type = some "rail") := by
      rintro (h | h | h | h)
      exacts [hbne h, h2 h, h3 h, h4 h]
    simp [hc1, hc2]
  · intro x hx
    exact (busPipeline_mem inp x hx).1
  · intro x hx
    exact (trainPipeline_mem inp tl htr x hx).1

theorem bus_before_train_concat_witness :
    (demoSSMixed.stop_type ≠ some "bus" ∧
     trainPipeline demoSSMixed = .ok [demoTrainRanked] ∧
     busPipeline demoSSMixed ≠ [] ∧ ([demoTrainRanked] : List RankedStop) ≠ []) ∧
    stopSearchClosestStops demoSSMixed =
      .ok (busPipeline demoSSMixed ++ [demoTrainRanked]) :=
  ⟨⟨by decide, by decide, by decide, by decide⟩,
   (bus_before_train_concat demoSSMixed [demoTrainRanked] (by decide) (by decide)
     (by decide) (by decide) (by decide) (by decide) (by decide)).1⟩

/-- C3 counterexample: with `routes=["22"]` and `exclude_stops=["100"]`
supplied together, the result still contains stop id 100 (the `elif` on
src/cta/cta.py:2167 never consults `exclude_stops` when `routes` is given), so
"no excluded stop id ever appears in the result" is false. -/
theorem routes_exclude_counterexample :
    demoSSBase.routes = some ["22"] ∧ demoSSBase.excludeStops = some ["100"] ∧
    Except.map (fun l => l.map (fun x : RankedStop => toString x.stop.stop_id))
        (stopSearchClosestStops demoSSBase) = .ok ["100", "200"] ∧
    "100" ∈ ["100"].map pyTitle := by
  refine ⟨rfl, rfl, ?_, by decide⟩
  decide

/-- C3 amended: the two filters are mutually exclusive, `routes` taking
precedence: when `routes` is absent, no stop whose (titled) id is on the
exclusion list survives to the result; when `routes` is supplied, the result is
entirely independent of `exclude_stops` — the exclusion list is silently
ignored. -/
theorem routes_exclude_amended :
    (∀ (inp : SSInput) (ex : List String) (res : List RankedStop),
      inp.routes = none → inp.excludeStops = some ex →
      stopSearchClosestStops inp = .ok res →
      ∀ x ∈ res, toString x.stop.stop_id ∉ ex.map pyTitle) ∧
    (∀ (inp : SSInput) (rs : List String) (e1 e2 : Option (List String)),
      stopSearchClosestStops { inp with routes := some rs, excludeStops := e1 } =
        stopSearchClosestStops { inp with routes := some rs, excludeStops := e2 }) := by
  constructor
  · intro inp ex res hr he hok x hx
    rcases stopSearchClosestStops_mem inp res hok x hx with hb | ⟨tl, htl, hxtl⟩
    · have hmem := (busPipeline_mem inp x hb).2
      rw [hr, he] at hmem
      simp only [applyRouteFilter] at hmem
      have := (List.mem_filter.mp hmem).2
      simpa using this
    · have hmem := (trainPipeline_mem inp tl htl x hxtl).2
      rw [hr, he] at hmem
      simp only [applyRouteFilter] at hmem
      have := (List.mem_filter.mp hmem).2
      simpa using this
  · intro inp rs e1 e2
    rfl

theorem routes_exclude_amended_witness :
    demoSSNoRoutes.routes = none ∧ demoSSNoRoutes.excludeStops = some ["100"] ∧
    stopSearchClosestStops demoSSNoRoutes =
      .ok [{ rtype := "bus", dir := none, stop := demoBusB, dist := 0 }] ∧
    (∀ x ∈ [({ rtype := "bus", dir := none, stop := demoBusB, dist := 0 } : RankedStop)],
      toString x.stop.stop_id ∉ ["100"].map pyTitle) :=
  ⟨rfl, rfl, by decide,
   routes_exclude_amended.1 demoSSNoRoutes ["100"] _ rfl rfl (by decide)⟩

/-- C2 counterexample: a zero-result geocoding response makes `geolocate` (and
the free-text `closest_stops` path) raise `IndexError` from
`response.json()[0]` — not a `GeocodeError`, which does not exist in the code;
and a transient network failure on the first request is surfaced immediately
even though a retry would have succeeded — there is no retry loop. -/
theorem geolocate_failure_counterexample :
    geolocate (fun _ => .ok []) = .error .indexError ∧
    (Except.error PyErr.indexError ≠
      (Except.error PyErr.geocodeError : Except PyErr GeoPlace)) ∧
    geolocate (fun n => if n = 0 then .netFailure
      else .ok [{ lat := 0, lon := 0 }]) = .error .requestsError ∧
    staticClosestStopsByQuery (fun _ => .ok []) [] (fun _ _ => 0) 5 none
      none none none = .error .indexError := by
  refine ⟨rfl, by decide, rfl, rfl⟩

/-- C2 amended: the geocoding call makes exactly one service request — its
outcome depends only on request 0, so transient network failures are never
retried; zero results raise `IndexError` (the claimed `GeocodeError` type does
not exist), network failures propagate the underlying requests exception, and
a non-empty result list resolves to its first element.  The free-text
`closest_stops` path propagates the `IndexError` on zero results. -/
theorem geolocate_single_attempt_amended :
    (∀ s1 s2 : ℕ → GeoResponse, s1 0 = s2 0 → geolocate s1 = geolocate s2) ∧
    (∀ s : ℕ → GeoResponse, s 0 = .ok [] → geolocate s = .error .indexError) ∧
    (∀ s : ℕ → GeoResponse, s 0 = .netFailure →
      geolocate s = .error .requestsError) ∧
    (∀ (s : ℕ → GeoResponse) (p : GeoPlace) (rest : List GeoPlace),
      s 0 = .ok (p :: rest) → geolocate s = .ok p) ∧
    (∀ (s : ℕ → GeoResponse) (feed : List GtfsStop)
        (keyOf : GeoPlace → GtfsStop → ℚ) (n : ℕ) (st : Option PyStopType)
        (c pp g : Option Bool), s 0 = .ok [] →
      staticClosestStopsByQuery s feed keyOf n st c pp g =
        .error .indexError) := by
  refine ⟨?_, ?_, ?_, ?_, ?_⟩
  · intro s1 s2 h
    unfold geolocate
    rw [h]
  · intro s h
    unfold geolocate
    rw [h]
  · intro s h
    unfold geolocate
    rw [h]
  · intro s p rest h
    unfold geolocate
    rw [h]
  · intro s feed keyOf n st c pp g h
    unfold staticClosestStopsByQuery geolocate
    rw [h]
    rfl

theorem geolocate_single_attempt_amended_witness :
    ((fun _ : ℕ => GeoResponse.ok []) 0 = GeoResponse.ok []) ∧
    geolocate (fun _ => GeoResponse.ok []) = .error .indexError :=
  ⟨rfl, geolocate_single_attempt_amended.2.1 (fun _ => GeoResponse.ok []) rfl⟩

theorem haversineLib_zero_meridian (u : HavUnit) :
    haversineLib 0 0 0 180 u = avgEarthRadius u * Real.pi := by
  have h0 : havRadians 0 = 0 := by simp [havRadians]
  have h180 : havRadians 180 = Real.pi := by
    unfold havRadians
    rw [mul_comm, mul_div_assoc]
    norm_num
  simp only [haversineLib, h0, h180]
  have hs0 : Real.sin (((0:ℝ) - 0) * 0.5) = 0 := by norm_num
  have hp2 : ((Real.pi - 0) * 0.5) = Real.pi / 2 := by ring
  rw [hs0, hp2, Real.sin_pi_div_two, Real.cos_zero]
  norm_num [Real.sqrt_one, Real.arcsin_one]
  ring

/-- C4 counterexample: at the antipodal equator points (0°, 0°) and (0°, 180°),
the value `get_distance` returns (its default unit, feet) differs from the
great-circle distance in miles: the claim "the distance function returns the
great-circle distance expressed in miles" is false at this input. -/
theorem get_distance_unit_counterexample :
    get_distance 0 0 0 180 ≠ haversineLib 0 0 0 180 .mi := by
  have h0 : pyRound15 (0 : ℝ) = 0 := by
    have h := pyRound15_intCast 0
    simpa using h
  have h180 : pyRound15 (180 : ℝ) = 180 := by
    have h := pyRound15_intCast 180
    simpa using h
  unfold get_distance
  rw [h0, h180]
  rw [haversineLib_zero_meridian, haversineLib_zero_meridian]
  intro heq
  have hne : avgEarthRadius .ft = avgEarthRadius .mi :=
    mul_right_cancel₀ Real.pi_ne_zero heq
  unfold avgEarthRadius havUnitConv at hne
  norm_num at hne

theorem haversineLib_symm (a b c d : ℝ) (u : HavUnit) :
    haversineLib a b c d u = haversineLib c d a b u := by
  have key : ∀ p q : ℝ, Real.sin ((p - q) * 0.5) ^ 2 =
      Real.sin ((q - p) * 0.5) ^ 2 := by
    intro p q
    rw [show (p - q) * 0.5 = -((q - p) * 0.5) by ring, Real.sin_neg]
    ring
  simp only [haversineLib]
  rw [key (havRadians c) (havRadians a), key (havRadians d) (havRadians b),
    mul_comm (Real.cos (havRadians a)) (Real.cos (havRadians c))]

/-- C4 amended: `get_distance` is symmetric and returns the haversine
great-circle distance in a single fixed unit — feet, the `'ft'` default that
every ranking call site uses — standing in the fixed ratio
(feet per km)/(miles per km) to the miles distance the spec asserts; the feet
and miles conversion factors differ. -/
theorem get_distance_unit_amended :
    (∀ x1 y1 x2 y2 : ℝ, get_distance x1 y1 x2 y2 = get_distance x2 y2 x1 y1) ∧
    (∀ x1 y1 x2 y2 : ℝ,
      havUnitConv .mi * get_distance x1 y1 x2 y2 =
        havUnitConv .ft * haversineLib (pyRound15 x1) (pyRound15 y1)
          (pyRound15 x2) (pyRound15 y2) .mi) ∧
    havUnitConv .ft ≠ havUnitConv .mi := by
  refine ⟨?_, ?_, ?_⟩
  · intro x1 y1 x2 y2
    unfold get_distance
    exact haversineLib_symm _ _ _ _ _
  · intro x1 y1 x2 y2
    unfold get_distance
    simp only [haversineLib, avgEarthRadius]
    ring
  · simp only [havUnitConv]
    norm_num

/-- Stability of the sorting model: among the elements whose key is any fixed
value, `insertByKey` inserts the new element in front (it only walks past
elements with a strictly smaller key), so a filter on an exact key value is
preserved. -/
theorem filter_insertByKey {α : Type} (key : α → ℚ) (x : α) (k : ℚ)
    (s : List α) :
    (insertByKey key x s).filter (fun a => key a = k) =
      if key x = k then x :: s.filter (fun a => key a = k)
      else s.filter (fun a => key a = k) := by
  induction s with
  | nil =>
    simp only [insertByKey]
    by_cases hk : key x = k <;> simp [hk]
  | cons y t ih =>
    by_cases hxy : key x ≤ key y
    · rw [insertByKey, if_pos hxy]
      by_cases hk : key x = k <;> simp [hk]
    · rw [insertByKey, if_neg hxy]
      by_cases hk : key x = k
      · have hyk : ¬(key y = k) := by
          intro hyk
          exact hxy (le_of_eq (hk.trans hyk.symm))
        simp [hk, hyk, ih]
      · by_cases hyk : key y = k <;> simp [hk, hyk, ih]

/-- The sorting model is stable: for every exact key value, the elements
carrying it appear in `sortByKey`'s output in their input relative order.
(Together with `sortByKey_perm` and `sortByKey_pairwise` this pins the output
uniquely, which is why a stable insertion sort is an exact observational model
of Python's stable `list.sort`.) -/
theorem sortByKey_stable {α : Type} (key : α → ℚ) (l : List α) (k : ℚ) :
    (sortByKey key l).filter (fun a => key a = k) =
      l.filter (fun a => key a = k) := by
  induction l with
  | nil => simp [sortByKey]
  | cons x t ih =>
    rw [sortByKey, filter_insertByKey]
    by_cases hk : key x = k <;> simp [hk, ih]
